import Mathlib

/-!
# Verification of the PythonSuperMario state-machine core

Shallow embedding of `source/tools.py` (the generic `State` contract and the
`Control` driver) and of `source/states/main_menu.py` (the `Menu` screen),
with theorems settling the specification claims about them.

Conventions of the embedding:
* Python's mutable objects become immutable Lean structures with explicit
  state passing; a method that mutates `self` becomes a function returning
  the new structure.
* Times (`pg.time.get_ticks()` values, `current_time`, `timer_start`) are
  naturals: the pygame tick counter is a non-negative integer number of
  milliseconds.  The menu's timeout test `current_time - timer_start >= 1000`
  becomes the natural-number test `1000 ≤ t - timer_start`, which agrees with
  the Python float test whenever it is reached (both are false when
  `t < timer_start`).
* A Python `dict` lookup that can raise `KeyError` becomes an `Except`
  computation whose error value is the missing key.
* Drawing calls (`surface.blit`, `overhead_info.draw`) write only to the
  output surface, never to screen state, and are omitted from the state
  model; `pg.display.update()` and `clock.tick(fps)` in the main loop are
  recorded as phases in an explicit trace.
-/

/-- Player identity stored under the `c.PLAYER_NAME` key of the persistent
dictionary.  Modelled from the spec: `constants.py` is not in the sources;
the spec only needs two distinct character identities (default Mario,
alternate Luigi). -/
inductive PlayerIdent where
  | mario : PlayerIdent
  | luigi : PlayerIdent
deriving DecidableEq, Repr

/-- Modelled from the spec: the `c.LOAD_SCREEN` identifier constant from the
missing `constants.py`; the spec only needs it to be the menu's fixed
successor identifier. -/
def LOAD_SCREEN : String := "load screen"

/-- The persistent-data bundle (`persist` / `game_info` dictionary).  The
keys used by the core are exactly those installed by `Menu.__init__`:
coin total, score, lives, top score, current time, level number, player
name; we model the open dictionary as a record with those fields. -/
structure GameInfo where
  coin_total : Nat
  score : Nat
  lives : Nat
  top_score : Nat
  current_time : Nat
  level_num : Nat
  player_name : PlayerIdent
deriving DecidableEq, Repr

/-- A snapshot of `pg.key.get_pressed()`, restricted to the keys the core
reads: the `keybinding` table keys plus `K_UP` and `K_RETURN` used by the
menu. -/
structure Keys where
  action : Bool
  jump : Bool
  left : Bool
  right : Bool
  down : Bool
  up : Bool
  enter : Bool
deriving DecidableEq, Repr

/-- The all-released key snapshot (no input pressed). -/
def Keys.none : Keys :=
  ⟨false, false, false, false, false, false, false⟩

/-! ## The `Menu` screen (`source/states/main_menu.py`)

`MenuState` holds the fields of a `Menu` object that persist between calls
and influence behaviour.  In Python, `self.persist` and `self.game_info`
are the same dictionary object after `startup` (and `reset_game_info`
re-establishes the alias), so they are modelled as the single field
`game_info`.  Purely visual attributes (background, image_dict, the
player images, the overhead `Info` object, the cursor sprite's image and
x-coordinate) never feed back into behaviour and are omitted; the cursor's
`state` and `rect.y` and the selection index are kept. -/

/-- The cursor's `state` attribute: `c.PLAYER1` or `c.PLAYER2`. -/
inductive CursorSel where
  | player1 : CursorSel
  | player2 : CursorSel
deriving DecidableEq, Repr

/-- State of a `Menu` object (fields of `tools.State` it uses, plus its own). -/
structure MenuState where
  done : Bool
  next : Option String
  game_info : GameInfo
  timer_start : Nat
  player_index : Nat
  cursor_sel : CursorSel
  cursor_y : Nat
  current_time : Nat
deriving DecidableEq, Repr

/-- `Menu.startup(current_time, persist)`: sets `next = c.LOAD_SCREEN`,
installs `persist` as the new `game_info`/`persist` bundle, re-runs
`setup_player` (selection index 0) and `setup_cursor` (cursor at
`c.PLAYER1`, y = 358), and records the activation time in `timer_start`.
It touches neither `done` nor `current_time`. -/
def Menu.startup (current_time : Nat) (persist : GameInfo) (s : MenuState) :
    MenuState :=
  { s with
    next := some LOAD_SCREEN
    game_info := persist
    player_index := 0
    cursor_sel := CursorSel.player1
    cursor_y := 358
    timer_start := current_time }

/-- `State.cleanup()` as inherited by `Menu`: resets `done` to `False` and
returns the persistent bundle (`self.persist`, aliased to `game_info`). -/
def Menu.cleanup (s : MenuState) : MenuState × GameInfo :=
  ({ s with done := false }, s.game_info)

/-- `Menu.reset_game_info()`: resets coin total, score, lives, current time
and level number to defaults; `top_score` and `player_name` keys are not
written. -/
def Menu.reset_game_info (g : GameInfo) : GameInfo :=
  { g with
    coin_total := 0
    score := 0
    lives := 3
    current_time := 0
    level_num := 1 }

/-- `Menu.update_cursor(keys)`: two-way toggle between the two selections on
`K_DOWN` / `K_UP`, then (separate `if`) on `K_RETURN` reset the game info
and set `done = True`. -/
def Menu.update_cursor (keys : Keys) (s : MenuState) : MenuState :=
  let s :=
    match s.cursor_sel with
    | CursorSel.player1 =>
      let s := { s with cursor_y := 358 }
      if keys.down then
        { s with
          cursor_sel := CursorSel.player2
          player_index := 1
          game_info := { s.game_info with player_name := PlayerIdent.luigi } }
      else s
    | CursorSel.player2 =>
      let s := { s with cursor_y := 403 }
      if keys.up then
        { s with
          cursor_sel := CursorSel.player1
          player_index := 0
          game_info := { s.game_info with player_name := PlayerIdent.mario } }
      else s
  if keys.enter then
    { s with game_info := Menu.reset_game_info s.game_info, done := true }
  else s

/-- `Menu.update(surface, keys, current_time)`: records the time in
`self.current_time` and in the bundle's `c.CURRENT_TIME` key, runs
`update_cursor`, draws (omitted: surface-only), then if
`current_time - timer_start >= 1000` sets `done = True` and
`next = c.LOAD_SCREEN`. -/
def Menu.update (keys : Keys) (current_time : Nat) (s : MenuState) :
    MenuState :=
  let s := { s with
    current_time := current_time
    game_info := { s.game_info with current_time := current_time } }
  let s := Menu.update_cursor keys s
  if 1000 ≤ current_time - s.timer_start then
    { s with done := true, next := some LOAD_SCREEN }
  else s

/-- Folding `Menu.update` over a list of per-frame inputs
`(keys, current_time)`. -/
def Menu.run (inputs : List (Keys × Nat)) (s : MenuState) : MenuState :=
  inputs.foldl (fun s i => Menu.update i.1 i.2 s) s

/-! ## The generic `State` contract and the `Control` driver
(`source/tools.py`)

`tools.State` is an abstract base class: every screen has the base fields
`start_time`, `current_time`, `done`, `next`, `persist`, the concrete
`cleanup` method defined on the base class, and abstract `startup`/`update`
methods supplied by the subclass.  We model a screen object as its base
fields plus subclass-specific extra state of an arbitrary type `α`
(`StateBase α`), paired with the subclass's method table (`ScreenOps α`);
the methods act on the data, mirroring Python's fixed per-class methods
operating on a mutable instance. -/

/-- The fields `tools.State.__init__` installs on every screen, plus the
subclass-specific extra state `extra : α`. -/
structure StateBase (α : Type) where
  start_time : Nat
  current_time : Nat
  done : Bool
  next : Option String
  persist : GameInfo
  extra : α

/-- The abstract methods of `tools.State`, implemented by each subclass.
`startup current_time persist` re-initialises the screen for activation;
`update keys current_time` advances it one frame (the drawing surface is
omitted: it is write-only). -/
structure ScreenOps (α : Type) where
  startup : Nat → GameInfo → StateBase α → StateBase α
  update : Keys → Nat → StateBase α → StateBase α

/-- `tools.State.cleanup()`: sets `done = False` on the instance and returns
`self.persist`. -/
def State.cleanup {α : Type} (s : StateBase α) : StateBase α × GameInfo :=
  ({ s with done := false }, s.persist)

/-- A screen object: its instance data plus its class's method table. -/
structure Screen (α : Type) where
  base : StateBase α
  ops : ScreenOps α

/-- Observable lifecycle events emitted by the controller, used to state
which screen methods a frame invokes and with what arguments. -/
inductive CEvent where
  | cleanupEv : Option String → CEvent
  | startupEv : Option String → Nat → GameInfo → CEvent
  | updateEv : Option String → CEvent
deriving DecidableEq, Repr

/-- Is a controller event a screen `update` invocation? -/
def CEvent.isUpdate : CEvent → Bool
  | CEvent.updateEv _ => true
  | _ => false

/-- The state of a `tools.Control` object.  The registry `state_dict` is a
map from identifier to an optional screen object; `state_name`/`state` are the
active identifier and the active screen.  In Python `self.state` aliases
`self.state_dict[self.state_name]`; the embedding writes every mutation of
the active screen back into the registry to preserve that aliasing.
(`self.screen`, the display surface, and `self.clock` are external
resources and are not part of the state; `fps` is kept.) -/
structure Control (α : Type) where
  done : Bool
  fps : Nat
  current_time : Nat
  keys : Keys
  state_dict : String → Option (Screen α)
  state_name : Option String
  state : Screen α

/-- `Control.setup_states(state_dict, start_state)`: installs the registry
and the start identifier and looks the start screen up (`KeyError` with the
missing key if it is absent — the only lookup performed at registration
time; the screens' `next` targets are not validated here). -/
def Control.setup_states {α : Type} (state_dict : String → Option (Screen α))
    (start_state : String) (c : Control α) :
    Except (Option String) (Control α) :=
  match state_dict start_state with
  | Option.none => Except.error (some start_state)
  | some scr =>
    Except.ok { c with
      state_dict := state_dict
      state_name := some start_state
      state := scr }

/-- The registry as seen by `flip_state`'s lookup: the outgoing screen has
just had `cleanup()` called on it, and in Python that mutation is visible
through the registry entry that aliases `self.state`. -/
def Control.registryAfterCleanup {α : Type} (c : Control α) :
    String → Option (Screen α) :=
  fun k =>
    if c.state_name = some k then
      some { c.state with base := (State.cleanup c.state.base).1 }
    else c.state_dict k

/-- `Control.flip_state()`: sets `state_name` to the outgoing screen's
`next`, calls `cleanup()` on the outgoing screen (the bundle it returns is
kept in `persist`), looks the incoming screen up in the registry
(`KeyError` with the missing key — `None` included — if absent), calls
`startup(current_time, persist)` on it and makes it the active screen.
Returns the new controller state and the lifecycle events emitted. -/
def Control.flip_state {α : Type} (c : Control α) :
    Except (Option String) (Control α × List CEvent) :=
  let previous := c.state_name
  let newName := c.state.base.next
  let persist := (State.cleanup c.state.base).2
  let dict1 := Control.registryAfterCleanup c
  match newName with
  | Option.none => Except.error Option.none
  | some n =>
    match dict1 n with
    | Option.none => Except.error (some n)
    | some scr =>
      let started : Screen α :=
        { scr with base := scr.ops.startup c.current_time persist scr.base }
      Except.ok
        ({ c with
            state_name := some n
            state_dict := fun k => if k = n then some started else dict1 k
            state := started },
          [CEvent.cleanupEv previous,
            CEvent.startupEv (some n) c.current_time persist])

/-- `Control.update()`: records the tick count in `current_time`, performs
the transition via `flip_state` if the active screen's `done` flag is set,
then calls `update(screen, keys, current_time)` exactly once on the
(possibly just-switched) active screen, writing the mutated screen back
into the registry slot it aliases. -/
def Control.update {α : Type} (ticks : Nat) (c : Control α) :
    Except (Option String) (Control α × List CEvent) := do
  let c := { c with current_time := ticks }
  let (c, evs) ←
    if c.state.base.done then Control.flip_state c else Except.ok (c, [])
  let updated : Screen α :=
    { c.state with base := c.state.ops.update c.keys c.current_time c.state.base }
  Except.ok
    ({ c with
        state := updated
        state_dict := fun k =>
          if c.state_name = some k then some updated else c.state_dict k },
      evs ++ [CEvent.updateEv c.state_name])

/-- Folding `Control.update` over a list of per-frame tick values,
concatenating the emitted lifecycle events. -/
def Control.runUpdates {α : Type} :
    List Nat → Control α → Except (Option String) (Control α × List CEvent)
  | [], c => Except.ok (c, [])
  | t :: ts, c =>
    match Control.update t c with
    | Except.error e => Except.error e
    | Except.ok (c1, e1) =>
      match Control.runUpdates ts c1 with
      | Except.error e => Except.error e
      | Except.ok (c2, e2) => Except.ok (c2, e1 ++ e2)

/-! ## Event loop and main loop (`Control.event_loop`, `Control.main`) -/

/-- An OS-level event from `pg.event.get()`.  A `keydown`/`keyup` event
carries the snapshot `pg.key.get_pressed()` returns when the controller
processes it. -/
inductive PEvent where
  | quit : PEvent
  | keydown : Keys → PEvent
  | keyup : Keys → PEvent
  | other : PEvent
deriving DecidableEq, Repr

/-- Is an OS event the quit signal? -/
def PEvent.isQuit : PEvent → Bool
  | PEvent.quit => true
  | _ => false

/-- The key snapshot attached to a key-down/key-up event, if any. -/
def PEvent.snap : PEvent → Option Keys
  | PEvent.keydown ks => some ks
  | PEvent.keyup ks => some ks
  | _ => Option.none

/-- The snapshot carried by the last key-down/key-up event of a queue. -/
def lastSnap : List PEvent → Option Keys
  | [] => Option.none
  | e :: es =>
    match lastSnap es with
    | some ks => some ks
    | Option.none => PEvent.snap e

/-- `Control.event_loop()`: drains the whole pending event queue in order;
a quit event sets the controller's `done` flag, a key-down or key-up event
refreshes the stored key snapshot from `pg.key.get_pressed()`. -/
def Control.event_loop {α : Type} (events : List PEvent) (c : Control α) :
    Control α :=
  events.foldl
    (fun c e =>
      match e with
      | PEvent.quit => { c with done := true }
      | PEvent.keydown ks => { c with keys := ks }
      | PEvent.keyup ks => { c with keys := ks }
      | PEvent.other => c)
    c

/-- One phase of a main-loop iteration, in the order the body of
`Control.main`'s `while` loop performs them: `self.event_loop()`,
`self.update()`, `pg.display.update()`, `self.clock.tick(self.fps)`. -/
inductive Phase where
  | eventPhase : Phase
  | updatePhase : Phase
  | displayPhase : Phase
  | throttlePhase : Phase
deriving DecidableEq, Repr

/-- The per-iteration external inputs of the main loop: the pending OS
event queue and the `pg.time.get_ticks()` value for the frame. -/
structure FrameInput where
  events : List PEvent
  ticks : Nat
deriving Repr

/-- `Control.main()`: `while not self.done:` run `event_loop`, `update`,
`pg.display.update()`, `clock.tick(fps)`.  The frame-input list supplies
each iteration's external inputs (and bounds the run); the result pairs the
outcome (final controller state, or the `KeyError` key if a transition
lookup failed) with the trace of phases performed, in order.  The terminal
flag is consulted once per iteration, at the top. -/
def Control.main {α : Type} :
    List FrameInput → Control α →
      Except (Option String) (Control α) × List Phase
  | [], c => (Except.ok c, [])
  | f :: fs, c =>
    if c.done then (Except.ok c, [])
    else
      let c1 := Control.event_loop f.events c
      match Control.update f.ticks c1 with
      | Except.error e =>
        (Except.error e, [Phase.eventPhase, Phase.updatePhase])
      | Except.ok (c2, _) =>
        let (r, tr) := Control.main fs c2
        (r, Phase.eventPhase :: Phase.updatePhase :: Phase.displayPhase ::
          Phase.throttlePhase :: tr)

/-! ## Helper lemmas about `Menu.update` -/

/-- `Menu.update` never writes `timer_start`. -/
theorem Menu.update_timer_start (keys : Keys) (t : Nat) (s : MenuState) :
    (Menu.update keys t s).timer_start = s.timer_start := by
  unfold Menu.update Menu.update_cursor
  cases s.cursor_sel <;> dsimp only <;> (repeat' split) <;> rfl

/-- The `done` flag after `Menu.update`: it stays set if it was set, and
becomes set exactly on `K_RETURN` or on the 1000-tick timeout. -/
theorem Menu.update_done (keys : Keys) (t : Nat) (s : MenuState) :
    (Menu.update keys t s).done =
      (s.done || keys.enter || decide (1000 ≤ t - s.timer_start)) := by
  unfold Menu.update Menu.update_cursor
  cases s.cursor_sel <;> dsimp only <;> (repeat' split) <;> simp_all

/-- The `next` target after `Menu.update`: set to `c.LOAD_SCREEN` on the
timeout, otherwise unchanged. -/
theorem Menu.update_next (keys : Keys) (t : Nat) (s : MenuState) :
    (Menu.update keys t s).next =
      (if 1000 ≤ t - s.timer_start then some LOAD_SCREEN else s.next) := by
  unfold Menu.update Menu.update_cursor
  cases s.cursor_sel <;> dsimp only <;> (repeat' split) <;> simp_all

/-- The selected player identity after `Menu.update`: toggled by `K_DOWN`
from the first selection or `K_UP` from the second, otherwise unchanged
(in particular `reset_game_info` never writes it). -/
theorem Menu.update_player_name (keys : Keys) (t : Nat) (s : MenuState) :
    (Menu.update keys t s).game_info.player_name =
      (match s.cursor_sel with
        | CursorSel.player1 =>
          if keys.down then PlayerIdent.luigi else s.game_info.player_name
        | CursorSel.player2 =>
          if keys.up then PlayerIdent.mario else s.game_info.player_name) := by
  unfold Menu.update Menu.update_cursor Menu.reset_game_info
  cases s.cursor_sel <;> dsimp only <;> (repeat' split) <;> simp_all

/-- The cursor selection after `Menu.update`. -/
theorem Menu.update_cursor_sel (keys : Keys) (t : Nat) (s : MenuState) :
    (Menu.update keys t s).cursor_sel =
      (match s.cursor_sel with
        | CursorSel.player1 =>
          if keys.down then CursorSel.player2 else CursorSel.player1
        | CursorSel.player2 =>
          if keys.up then CursorSel.player1 else CursorSel.player2) := by
  unfold Menu.update Menu.update_cursor
  cases s.cursor_sel <;> dsimp only <;> (repeat' split) <;> simp_all

/-- Game statistics after `Menu.update`: zeroed/defaulted exactly when
`K_RETURN` is pressed, otherwise carried over unchanged. -/
theorem Menu.update_stats (keys : Keys) (t : Nat) (s : MenuState) :
    (Menu.update keys t s).game_info.coin_total =
        (if keys.enter then 0 else s.game_info.coin_total) ∧
      (Menu.update keys t s).game_info.score =
        (if keys.enter then 0 else s.game_info.score) ∧
      (Menu.update keys t s).game_info.lives =
        (if keys.enter then 3 else s.game_info.lives) ∧
      (Menu.update keys t s).game_info.level_num =
        (if keys.enter then 1 else s.game_info.level_num) := by
  unfold Menu.update Menu.update_cursor Menu.reset_game_info
  cases s.cursor_sel <;> dsimp only <;> (repeat' split) <;> simp_all

/-- Key snapshot with only `K_DOWN` pressed. -/
def Keys.downOnly : Keys := { Keys.none with down := true }

/-- Key snapshot with only `K_UP` pressed. -/
def Keys.upOnly : Keys := { Keys.none with up := true }

/-- Key snapshot with only `K_RETURN` (confirm) pressed. -/
def Keys.enterOnly : Keys := { Keys.none with enter := true }

/-! ## Menu claim theorems -/

/-- C10: `Menu.reset_game_info` sets coin total, score, lives, current time
and level number to their defaults and leaves the top score and the player
identity of the bundle unchanged. -/
theorem menu_reset_game_info_defaults (g : GameInfo) :
    (Menu.reset_game_info g).coin_total = 0 ∧
      (Menu.reset_game_info g).score = 0 ∧
      (Menu.reset_game_info g).lives = 3 ∧
      (Menu.reset_game_info g).current_time = 0 ∧
      (Menu.reset_game_info g).level_num = 1 ∧
      (Menu.reset_game_info g).top_score = g.top_score ∧
      (Menu.reset_game_info g).player_name = g.player_name := by
  unfold Menu.reset_game_info
  exact ⟨rfl, rfl, rfl, rfl, rfl, rfl, rfl⟩

/-- C7: the menu resets the statistics only on confirm.  `Menu.startup`
installs the given bundle unchanged (so entering the menu never rewrites
its statistics), and a `Menu.update` frame in which the confirm key is not
pressed leaves the bundle's coin total, score, lives and level number
exactly as they were. -/
theorem menu_reset_only_on_confirm (t : Nat) (p : GameInfo) (s : MenuState)
    (keys : Keys) (tu : Nat) (s' : MenuState) (h : keys.enter = false) :
    (Menu.startup t p s).game_info = p ∧
      (Menu.update keys tu s').game_info.coin_total =
        s'.game_info.coin_total ∧
      (Menu.update keys tu s').game_info.score = s'.game_info.score ∧
      (Menu.update keys tu s').game_info.lives = s'.game_info.lives ∧
      (Menu.update keys tu s').game_info.level_num =
        s'.game_info.level_num := by
  obtain ⟨h1, h2, h3, h4⟩ := Menu.update_stats keys tu s'
  refine ⟨rfl, ?_, ?_, ?_, ?_⟩ <;> simp_all

/-- Witness for C7 at a concrete bundle, menu state and input frame. -/
theorem menu_reset_only_on_confirm_witness :
    (Menu.startup 5
          ⟨7, 400, 2, 900, 3, 4, PlayerIdent.luigi⟩
          ⟨false, some LOAD_SCREEN, ⟨0, 0, 3, 0, 0, 1, PlayerIdent.mario⟩,
            0, 0, CursorSel.player1, 358, 0⟩).game_info =
        ⟨7, 400, 2, 900, 3, 4, PlayerIdent.luigi⟩ ∧
      (Menu.update Keys.downOnly 17
            ⟨false, some LOAD_SCREEN, ⟨7, 400, 2, 900, 3, 4, PlayerIdent.mario⟩,
              0, 0, CursorSel.player1, 358, 0⟩).game_info.coin_total = 7 ∧
      (Menu.update Keys.downOnly 17
            ⟨false, some LOAD_SCREEN, ⟨7, 400, 2, 900, 3, 4, PlayerIdent.mario⟩,
              0, 0, CursorSel.player1, 358, 0⟩).game_info.score = 400 ∧
      (Menu.update Keys.downOnly 17
            ⟨false, some LOAD_SCREEN, ⟨7, 400, 2, 900, 3, 4, PlayerIdent.mario⟩,
              0, 0, CursorSel.player1, 358, 0⟩).game_info.lives = 2 ∧
      (Menu.update Keys.downOnly 17
            ⟨false, some LOAD_SCREEN, ⟨7, 400, 2, 900, 3, 4, PlayerIdent.mario⟩,
              0, 0, CursorSel.player1, 358, 0⟩).game_info.level_num = 4 :=
  menu_reset_only_on_confirm 5 ⟨7, 400, 2, 900, 3, 4, PlayerIdent.luigi⟩
    ⟨false, some LOAD_SCREEN, ⟨0, 0, 3, 0, 0, 1, PlayerIdent.mario⟩,
      0, 0, CursorSel.player1, 358, 0⟩
    Keys.downOnly 17
    ⟨false, some LOAD_SCREEN, ⟨7, 400, 2, 900, 3, 4, PlayerIdent.mario⟩,
      0, 0, CursorSel.player1, 358, 0⟩
    rfl

/-- C6: from the default selection, a frame with `K_DOWN` pressed followed
by a frame with `K_RETURN` pressed leaves the bundle's player identity at
the alternate character Luigi with `done = true`; and from the alternate
selection, a frame with `K_UP` pressed reverts the identity to Mario. -/
theorem menu_character_selection (s s' : MenuState) (t1 t2 t3 : Nat)
    (h : s.cursor_sel = CursorSel.player1)
    (h' : s'.cursor_sel = CursorSel.player2) :
    ((Menu.update Keys.enterOnly t2
            (Menu.update Keys.downOnly t1 s)).game_info.player_name =
          PlayerIdent.luigi ∧
        (Menu.update Keys.enterOnly t2
            (Menu.update Keys.downOnly t1 s)).done = true) ∧
      (Menu.update Keys.upOnly t3 s').game_info.player_name =
        PlayerIdent.mario := by
  have hsel := Menu.update_cursor_sel Keys.downOnly t1 s
  have hname := Menu.update_player_name Keys.downOnly t1 s
  rw [h] at hsel hname
  refine ⟨⟨?_, ?_⟩, ?_⟩
  · rw [Menu.update_player_name, hsel]
    simp [Keys.downOnly, Keys.none] at hname ⊢
    exact hname
  · rw [Menu.update_done]
    simp [Keys.enterOnly, Keys.none]
  · rw [Menu.update_player_name, h']
    simp [Keys.upOnly, Keys.none]

/-- Witness for C6 at concrete menu states and frame times. -/
theorem menu_character_selection_witness :
    ((Menu.update Keys.enterOnly 40
            (Menu.update Keys.downOnly 20
              ⟨false, some LOAD_SCREEN,
                ⟨0, 0, 3, 0, 0, 1, PlayerIdent.mario⟩,
                0, 0, CursorSel.player1, 358, 0⟩)).game_info.player_name =
          PlayerIdent.luigi ∧
        (Menu.update Keys.enterOnly 40
            (Menu.update Keys.downOnly 20
              ⟨false, some LOAD_SCREEN,
                ⟨0, 0, 3, 0, 0, 1, PlayerIdent.mario⟩,
                0, 0, CursorSel.player1, 358, 0⟩)).done = true) ∧
      (Menu.update Keys.upOnly 60
          ⟨false, some LOAD_SCREEN,
            ⟨0, 0, 3, 0, 0, 1, PlayerIdent.luigi⟩,
            0, 1, CursorSel.player2, 403, 0⟩).game_info.player_name =
        PlayerIdent.mario :=
  menu_character_selection
    ⟨false, some LOAD_SCREEN, ⟨0, 0, 3, 0, 0, 1, PlayerIdent.mario⟩,
      0, 0, CursorSel.player1, 358, 0⟩
    ⟨false, some LOAD_SCREEN, ⟨0, 0, 3, 0, 0, 1, PlayerIdent.luigi⟩,
      0, 1, CursorSel.player2, 403, 0⟩
    20 40 60 rfl rfl

/-- With no input and all frame times strictly under activation + 1000,
repeated `Menu.update` calls keep `done` false and do not touch
`timer_start`. -/
theorem Menu.run_idle (T : Nat) (ts : List Nat)
    (hts : ∀ t ∈ ts, t < T + 1000) (s : MenuState)
    (h1 : s.done = false) (h2 : s.timer_start = T) :
    (Menu.run (ts.map fun t => (Keys.none, t)) s).done = false ∧
      (Menu.run (ts.map fun t => (Keys.none, t)) s).timer_start = T := by
  induction ts generalizing s with
  | nil => exact ⟨h1, h2⟩
  | cons t ts ih =>
    have hstep : Menu.run ((t :: ts).map fun t => (Keys.none, t)) s =
        Menu.run (ts.map fun t => (Keys.none, t)) (Menu.update Keys.none t s) := by
      rfl
    rw [hstep]
    apply ih (fun u hu => hts u (List.mem_cons_of_mem _ hu))
    · rw [Menu.update_done, h1, h2]
      have : t - T < 1000 := by
        have := hts t (List.mem_cons_self _ _)
        omega
      simp [Keys.none]
      omega
    · rw [Menu.update_timer_start, h2]

/-- C5: a menu activated via `startup` at time `T` with no input pressed
keeps `done = false` through every update frame whose time is below
`T + 1000`, and the first update frame at a time `≥ T + 1000` sets
`done = true` with `next` equal to the load-screen identifier. -/
theorem menu_idle_timeout (T : Nat) (p : GameInfo) (s : MenuState)
    (hdone : s.done = false) (ts : List Nat)
    (hts : ∀ t ∈ ts, t < T + 1000) (tlast : Nat)
    (hlast : T + 1000 ≤ tlast) :
    (Menu.run (ts.map fun t => (Keys.none, t)) (Menu.startup T p s)).done =
        false ∧
      (Menu.update Keys.none tlast
          (Menu.run (ts.map fun t => (Keys.none, t))
            (Menu.startup T p s))).done = true ∧
      (Menu.update Keys.none tlast
          (Menu.run (ts.map fun t => (Keys.none, t))
            (Menu.startup T p s))).next = some LOAD_SCREEN := by
  have hs0done : (Menu.startup T p s).done = false := hdone
  have hs0timer : (Menu.startup T p s).timer_start = T := rfl
  obtain ⟨hrdone, hrtimer⟩ :=
    Menu.run_idle T ts hts (Menu.startup T p s) hs0done hs0timer
  refine ⟨hrdone, ?_, ?_⟩
  · rw [Menu.update_done, hrtimer]
    simp
    omega
  · rw [Menu.update_next, hrtimer]
    simp
    omega

/-- Witness for C5: activation at T = 100, three idle frames below the
threshold, then a frame at time 1100 = T + 1000. -/
theorem menu_idle_timeout_witness :
    ((Menu.run ([200, 600, 1099].map fun t => (Keys.none, t))
          (Menu.startup 100 ⟨0, 0, 3, 0, 0, 1, PlayerIdent.mario⟩
            ⟨false, Option.none, ⟨0, 0, 3, 0, 0, 1, PlayerIdent.mario⟩,
              0, 0, CursorSel.player1, 358, 0⟩)).done = false ∧
      (Menu.update Keys.none 1100
          (Menu.run ([200, 600, 1099].map fun t => (Keys.none, t))
            (Menu.startup 100 ⟨0, 0, 3, 0, 0, 1, PlayerIdent.mario⟩
              ⟨false, Option.none, ⟨0, 0, 3, 0, 0, 1, PlayerIdent.mario⟩,
                0, 0, CursorSel.player1, 358, 0⟩))).done = true ∧
      (Menu.update Keys.none 1100
          (Menu.run ([200, 600, 1099].map fun t => (Keys.none, t))
            (Menu.startup 100 ⟨0, 0, 3, 0, 0, 1, PlayerIdent.mario⟩
              ⟨false, Option.none, ⟨0, 0, 3, 0, 0, 1, PlayerIdent.mario⟩,
                0, 0, CursorSel.player1, 358, 0⟩))).next =
        some LOAD_SCREEN) :=
  menu_idle_timeout 100 ⟨0, 0, 3, 0, 0, 1, PlayerIdent.mario⟩
    ⟨false, Option.none, ⟨0, 0, 3, 0, 0, 1, PlayerIdent.mario⟩,
      0, 0, CursorSel.player1, 358, 0⟩
    rfl [200, 600, 1099] (by intro t ht; fin_cases ht <;> omega)
    1100 (by omega)

/-- Two menu states that agree on every field except the frame timestamp
`current_time` (which every `update` overwrites before reading). -/
def MenuState.agreesExceptTime (s s' : MenuState) : Prop :=
  s.done = s'.done ∧ s.next = s'.next ∧ s.game_info = s'.game_info ∧
    s.timer_start = s'.timer_start ∧ s.player_index = s'.player_index ∧
    s.cursor_sel = s'.cursor_sel ∧ s.cursor_y = s'.cursor_y

/-- `agreesExceptTime` is reflexive. -/
theorem MenuState.agreesExceptTime_refl (s : MenuState) :
    MenuState.agreesExceptTime s s :=
  ⟨rfl, rfl, rfl, rfl, rfl, rfl, rfl⟩

/-- `Menu.update` gives fully equal results on states that agree except on
`current_time`: the stale timestamp is overwritten before anything reads
it. -/
theorem Menu.update_agrees (k : Keys) (t : Nat) (s s' : MenuState)
    (h : MenuState.agreesExceptTime s s') :
    Menu.update k t s = Menu.update k t s' := by
  obtain ⟨d, n, g, ts, pi, cs, cy, ct⟩ := s
  obtain ⟨d', n', g', ts', pi', cs', cy', ct'⟩ := s'
  obtain ⟨h1, h2, h3, h4, h5, h6, h7⟩ := h
  dsimp at h1 h2 h3 h4 h5 h6 h7
  subst h1; subst h2; subst h3; subst h4; subst h5; subst h6; subst h7
  rfl

/-- Witness for `Menu.update_agrees` on two states differing only in
`current_time`. -/
theorem Menu.update_agrees_witness :
    Menu.update Keys.downOnly 50
        ⟨false, Option.none, ⟨0, 0, 3, 0, 0, 1, PlayerIdent.mario⟩,
          0, 0, CursorSel.player1, 358, 11⟩ =
      Menu.update Keys.downOnly 50
        ⟨false, Option.none, ⟨0, 0, 3, 0, 0, 1, PlayerIdent.mario⟩,
          0, 0, CursorSel.player1, 358, 99⟩ :=
  Menu.update_agrees Keys.downOnly 50 _ _
    ⟨rfl, rfl, rfl, rfl, rfl, rfl, rfl⟩

/-- Folding frames preserves `agreesExceptTime`. -/
theorem Menu.run_agrees (inputs : List (Keys × Nat)) (s s' : MenuState)
    (h : MenuState.agreesExceptTime s s') :
    MenuState.agreesExceptTime (Menu.run inputs s) (Menu.run inputs s') := by
  cases inputs with
  | nil => exact h
  | cons i is =>
    have hstep : Menu.update i.1 i.2 s = Menu.update i.1 i.2 s' :=
      Menu.update_agrees i.1 i.2 s s' h
    show MenuState.agreesExceptTime
      (Menu.run is (Menu.update i.1 i.2 s))
      (Menu.run is (Menu.update i.1 i.2 s'))
    rw [hstep]
    exact MenuState.agreesExceptTime_refl _

/-- C3: `State.cleanup` resets the `done` flag to false and returns the
screen's persistent bundle; consequently the same menu instance, whatever
its prior state, can be reactivated by `cleanup` followed by
`startup(t, p)` and then behaves identically on identical inputs through
its whole further lifecycle (all behaviour-relevant fields coincide after
any sequence of frames). -/
theorem cleanup_resets_done_and_reactivates (α : Type) (sb : StateBase α)
    (s1 s2 : MenuState) (t : Nat) (p : GameInfo)
    (inputs : List (Keys × Nat)) :
    ((State.cleanup sb).1.done = false ∧
        (State.cleanup sb).2 = sb.persist) ∧
      MenuState.agreesExceptTime
        (Menu.run inputs (Menu.startup t p (Menu.cleanup s1).1))
        (Menu.run inputs (Menu.startup t p (Menu.cleanup s2).1)) := by
  refine ⟨⟨rfl, rfl⟩, ?_⟩
  apply Menu.run_agrees
  exact ⟨rfl, rfl, rfl, rfl, rfl, rfl, rfl⟩

/-! ## Controller lemmas -/

/-- `Control.flip_state` on a screen whose `next` is registered: the full
transition, spelled out.  The active identifier becomes `next`, the
registry (as mutated by `cleanup` on the outgoing screen) supplies the
incoming screen, which gets `startup(current_time, bundle)` with the bundle
`cleanup()` returned, and becomes the active screen; the cleanup and
startup invocations are emitted in that order. -/
theorem Control.flip_state_spec {α : Type} (c : Control α) (n : String)
    (scr : Screen α) (hnext : c.state.base.next = some n)
    (hlook : Control.registryAfterCleanup c n = some scr) :
    Control.flip_state c = Except.ok
      ({ c with
          state_name := some n
          state_dict := fun k =>
            if k = n then
              some { scr with
                base := scr.ops.startup c.current_time
                  (State.cleanup c.state.base).2 scr.base }
            else Control.registryAfterCleanup c k
          state := { scr with
            base := scr.ops.startup c.current_time
              (State.cleanup c.state.base).2 scr.base } },
        [CEvent.cleanupEv c.state_name,
          CEvent.startupEv (some n) c.current_time
            (State.cleanup c.state.base).2]) := by
  unfold Control.flip_state
  rw [hnext]
  dsimp only
  rw [hlook]

/-- C1: when the per-frame `Control.update` runs with the active screen's
`done` flag set, the transition happens before the frame's screen update:
the active identifier becomes the outgoing screen's `next`, `cleanup()` is
called on the outgoing screen, the incoming screen is looked up in the
registry and gets `startup` with exactly the bundle `cleanup()` returned,
and only then is `update` called, exactly once, on the new active screen —
as witnessed by the emitted event list and by the resulting active
screen's state. -/
theorem control_update_transition {α : Type} (c : Control α) (t : Nat)
    (n : String) (scr : Screen α)
    (hdone : c.state.base.done = true)
    (hnext : c.state.base.next = some n)
    (hlook : Control.registryAfterCleanup c n = some scr) :
    ∃ c' : Control α,
      Control.update t c = Except.ok
          (c',
            [CEvent.cleanupEv c.state_name,
              CEvent.startupEv (some n) t (State.cleanup c.state.base).2,
              CEvent.updateEv (some n)]) ∧
        (State.cleanup c.state.base).2 = c.state.base.persist ∧
        c'.state_name = some n ∧
        c'.state.base =
          scr.ops.update c.keys t
            (scr.ops.startup t (State.cleanup c.state.base).2 scr.base) := by
  have hnext' : ({ c with current_time := t } : Control α).state.base.next =
      some n := hnext
  have hlook' : Control.registryAfterCleanup
      ({ c with current_time := t } : Control α) n = some scr := hlook
  have hflip := Control.flip_state_spec ({ c with current_time := t }) n scr
    hnext' hlook'
  unfold Control.update
  simp only [hdone, hflip, if_true, ite_true, Except.bind]
  exact ⟨_, rfl, rfl, rfl, rfl⟩

/-! ## Concrete fixtures for witnesses: a two-screen configuration -/

/-- A concrete persistent bundle. -/
def demoInfo : GameInfo := ⟨2, 300, 3, 900, 7, 1, PlayerIdent.mario⟩

/-- Method table of the outgoing demo screen. -/
def demoOpsA : ScreenOps Unit :=
  ⟨fun t p s => { s with start_time := t, persist := p },
    fun _ t s => { s with current_time := t }⟩

/-- Method table of the incoming demo screen. -/
def demoOpsB : ScreenOps Unit :=
  ⟨fun t p s => { s with start_time := t, persist := p, next := some "a" },
    fun _ t s => { s with current_time := t }⟩

/-- Demo screen `"a"`: finished (`done = true`), successor `"b"`. -/
def demoScreenA : Screen Unit :=
  ⟨⟨0, 0, true, some "b", demoInfo, ()⟩, demoOpsA⟩

/-- Demo screen `"b"`: idle. -/
def demoScreenB : Screen Unit :=
  ⟨⟨0, 0, false, Option.none, ⟨0, 0, 3, 0, 0, 1, PlayerIdent.luigi⟩, ()⟩,
    demoOpsB⟩

/-- Demo registry holding the two screens. -/
def demoDict : String → Option (Screen Unit) :=
  fun k =>
    if k = "a" then some demoScreenA
    else if k = "b" then some demoScreenB
    else Option.none

/-- Demo controller with screen `"a"` active. -/
def demoControl : Control Unit :=
  ⟨false, 60, 0, Keys.none, demoDict, some "a", demoScreenA⟩

/-- Witness for C1: the demo controller transitions from `"a"` to `"b"`. -/
theorem control_update_transition_witness :
    ∃ c' : Control Unit,
      Control.update 42 demoControl = Except.ok
          (c',
            [CEvent.cleanupEv demoControl.state_name,
              CEvent.startupEv (some "b") 42
                (State.cleanup demoControl.state.base).2,
              CEvent.updateEv (some "b")]) ∧
        (State.cleanup demoControl.state.base).2 =
          demoControl.state.base.persist ∧
        c'.state_name = some "b" ∧
        c'.state.base =
          demoScreenB.ops.update demoControl.keys 42
            (demoScreenB.ops.startup 42
              (State.cleanup demoControl.state.base).2 demoScreenB.base) :=
  control_update_transition demoControl 42 "b" demoScreenB rfl rfl rfl

/-- `Control.update` on a frame where the active screen's `done` flag is
false: no transition — only the screen's own `update` runs, written back to
the registry slot it aliases. -/
theorem Control.update_no_flip {α : Type} (t : Nat) (c : Control α)
    (h : c.state.base.done = false) :
    Control.update t c = Except.ok
      ({ c with
          current_time := t
          state := { c.state with
            base := c.state.ops.update c.keys t c.state.base }
          state_dict := fun k =>
            if c.state_name = some k then
              some { c.state with
                base := c.state.ops.update c.keys t c.state.base }
            else c.state_dict k },
        [CEvent.updateEv c.state_name]) := by
  unfold Control.update
  simp only [h, Bool.false_eq_true, if_false, ite_false, Except.bind]
  rfl

/-- The `done` flag of the active screen is false at the start of every
frame of the run: the hypothesis of the no-transition invariant. -/
def Control.neverDone {α : Type} : List Nat → Control α → Prop
  | [], _ => True
  | t :: ts, c =>
    c.state.base.done = false ∧
      (match Control.update t c with
        | Except.ok (c', _) => Control.neverDone ts c'
        | Except.error _ => True)

/-- C2: over any sequence of frames in which the active screen's `done`
flag is false at the start of every `Control.update`, the run succeeds,
the active identifier never changes, and every lifecycle event emitted is
a screen `update` — `cleanup`/`startup` are never invoked on any screen. -/
theorem control_no_transition {α : Type} (ts : List Nat) (c : Control α)
    (h : Control.neverDone ts c) :
    ∃ (c' : Control α) (evs : List CEvent),
      Control.runUpdates ts c = Except.ok (c', evs) ∧
        c'.state_name = c.state_name ∧
        ∀ e ∈ evs, e.isUpdate = true := by
  induction ts generalizing c with
  | nil => exact ⟨c, [], rfl, rfl, by intro e he; cases he⟩
  | cons t ts ih =>
    obtain ⟨hdone, hrest⟩ := h
    rw [Control.update_no_flip t c hdone] at hrest
    dsimp only at hrest
    obtain ⟨c', evs, hrun, hname, hups⟩ := ih _ hrest
    refine ⟨c', CEvent.updateEv c.state_name :: evs, ?_, ?_, ?_⟩
    · unfold Control.runUpdates
      rw [Control.update_no_flip t c hdone]
      dsimp only
      rw [hrun]
      rfl
    · rw [hname]
    · intro e he
      rcases List.mem_cons.1 he with h1 | h2
      · rw [h1]; rfl
      · exact hups e h2

/-- Demo controller with the idle screen `"b"` active. -/
def demoControlIdle : Control Unit :=
  ⟨false, 60, 0, Keys.none, demoDict, some "b", demoScreenB⟩

/-- Witness for C2: two idle frames on the demo controller. -/
theorem control_no_transition_witness :
    ∃ (c' : Control Unit) (evs : List CEvent),
      Control.runUpdates [5, 9] demoControlIdle = Except.ok (c', evs) ∧
        c'.state_name = demoControlIdle.state_name ∧
        ∀ e ∈ evs, e.isUpdate = true :=
  control_no_transition [5, 9] demoControlIdle
    (by
      refine ⟨rfl, ?_⟩
      rw [Control.update_no_flip 5 demoControlIdle rfl]
      exact ⟨rfl, by rw [Control.update_no_flip 9 _ rfl]; trivial⟩)

/-- C4: a dangling `next` target is not validated at registration time and
is reported at transition time.  `setup_states` accepts a registry in which
the start screen's `next` names no registered screen; the first frame that
observes the screen's `done` flag then fails the transition lookup with an
error naming exactly the missing identifier, instead of carrying on with
the old screen. -/
theorem control_unregistered_next {α : Type}
    (d : String → Option (Screen α)) (s0 : String) (scr0 : Screen α)
    (c0 : Control α) (n : String) (t : Nat)
    (hreg : d s0 = some scr0)
    (hdone : scr0.base.done = true)
    (hnext : scr0.base.next = some n)
    (hns : n ≠ s0)
    (hmiss : d n = Option.none) :
    ∃ c1 : Control α,
      Control.setup_states d s0 c0 = Except.ok c1 ∧
        Control.update t c1 = Except.error (some n) := by
  unfold Control.setup_states
  rw [hreg]
  refine ⟨_, rfl, ?_⟩
  unfold Control.update
  simp only [hdone, if_true, ite_true]
  unfold Control.flip_state
  rw [show ({ c0 with state_dict := d, state_name := some s0, state := scr0 }
      : Control α).state.base.next = some n from hnext]
  dsimp only
  rw [show Control.registryAfterCleanup
      { c0 with
        current_time := t
        state_dict := d
        state_name := some s0
        state := scr0 } n = Option.none by
    unfold Control.registryAfterCleanup
    dsimp only
    rw [if_neg (by simp [hns.symm]), hmiss]]
  rfl

/-- Witness for C4: a registry whose screen `"a"` is finished with
`next = "c"`, an identifier absent from the registry. -/
theorem control_unregistered_next_witness :
    ∃ c1 : Control Unit,
      Control.setup_states
            (fun k => if k = "a" then
              some ⟨⟨0, 0, true, some "c", demoInfo, ()⟩, demoOpsA⟩
            else Option.none) "a" demoControlIdle = Except.ok c1 ∧
        Control.update 31 c1 = Except.error (some "c") :=
  control_unregistered_next
    (fun k => if k = "a" then
      some ⟨⟨0, 0, true, some "c", demoInfo, ()⟩, demoOpsA⟩
    else Option.none)
    "a" ⟨⟨0, 0, true, some "c", demoInfo, ()⟩, demoOpsA⟩ demoControlIdle
    "c" 31 rfl rfl rfl (by decide) rfl

/-- One step of the event-loop fold. -/
theorem Control.event_loop_cons {α : Type} (e : PEvent) (es : List PEvent)
    (c : Control α) :
    Control.event_loop (e :: es) c =
      Control.event_loop es
        (match e with
          | PEvent.quit => { c with done := true }
          | PEvent.keydown ks => { c with keys := ks }
          | PEvent.keyup ks => { c with keys := ks }
          | PEvent.other => c) := rfl

/-- Unfolding equation for `lastSnap` on a non-empty queue. -/
theorem lastSnap_cons (e : PEvent) (es : List PEvent) :
    lastSnap (e :: es) =
      match lastSnap es with
      | some ks => some ks
      | Option.none => PEvent.snap e := rfl

/-- C8: one `event_loop` call drains the whole pending queue: afterwards
the controller's terminal flag is set exactly when it already was or some
quit event was pending, the stored key snapshot is the one attached to the
last key-down/key-up event (unchanged if there was none), and the screen
machinery — registry, active identifier, active screen — is untouched. -/
theorem control_event_loop_drains {α : Type} (events : List PEvent)
    (c : Control α) :
    (Control.event_loop events c).done =
        (c.done || events.any PEvent.isQuit) ∧
      (Control.event_loop events c).keys = (lastSnap events).getD c.keys ∧
      (Control.event_loop events c).state_name = c.state_name ∧
      (Control.event_loop events c).state = c.state ∧
      (Control.event_loop events c).state_dict = c.state_dict := by
  induction events generalizing c with
  | nil => exact ⟨by simp [Control.event_loop], rfl, rfl, rfl, rfl⟩
  | cons e es ih =>
    rw [Control.event_loop_cons]
    cases e with
    | quit =>
      obtain ⟨h1, h2, h3, h4, h5⟩ := ih { c with done := true }
      refine ⟨by rw [h1]; simp [PEvent.isQuit], ?_, h3, h4, h5⟩
      rw [h2, lastSnap_cons]
      cases hs : lastSnap es <;> simp [hs, PEvent.snap]
    | keydown ks =>
      obtain ⟨h1, h2, h3, h4, h5⟩ := ih { c with keys := ks }
      refine ⟨by rw [h1]; simp [PEvent.isQuit], ?_, h3, h4, h5⟩
      rw [h2, lastSnap_cons]
      cases hs : lastSnap es <;> simp [hs, PEvent.snap]
    | keyup ks =>
      obtain ⟨h1, h2, h3, h4, h5⟩ := ih { c with keys := ks }
      refine ⟨by rw [h1]; simp [PEvent.isQuit], ?_, h3, h4, h5⟩
      rw [h2, lastSnap_cons]
      cases hs : lastSnap es <;> simp [hs, PEvent.snap]
    | other =>
      obtain ⟨h1, h2, h3, h4, h5⟩ := ih c
      refine ⟨by rw [h1]; simp [PEvent.isQuit], ?_, h3, h4, h5⟩
      rw [h2, lastSnap_cons]
      cases hs : lastSnap es <;> simp [hs, PEvent.snap]

/-- Once the terminal flag is observed true at the top of an iteration, the
loop runs no phase at all. -/
theorem Control.main_stops {α : Type} (fs : List FrameInput) (c : Control α)
    (h : c.done = true) : Control.main fs c = (Except.ok c, []) := by
  cases fs with
  | nil => rfl
  | cons f fs =>
    unfold Control.main
    simp only [h, ite_true]

/-- A successful `flip_state` never changes the controller's own terminal
flag. -/
theorem Control.flip_state_done_eq {α : Type} (c c1 : Control α)
    (evs : List CEvent) (h : Control.flip_state c = Except.ok (c1, evs)) :
    c1.done = c.done := by
  unfold Control.flip_state at h
  cases hn : c.state.base.next with
  | none => rw [hn] at h; exact Except.noConfusion h
  | some n =>
    rw [hn] at h
    dsimp only at h
    cases hl : Control.registryAfterCleanup c n with
    | none => rw [hl] at h; exact Except.noConfusion h
    | some scr =>
      rw [hl] at h
      dsimp only at h
      have h1 := Except.ok.inj h
      have h2 := congrArg Prod.fst h1
      dsimp only at h2
      rw [← h2]

/-- `Control.update` on a frame where the active screen is finished and the
transition succeeds: the flipped controller's screen is updated once and
written back, and the update event is appended to the transition events. -/
theorem Control.update_flip {α : Type} (t : Nat) (c : Control α)
    (h : c.state.base.done = true) (c1 : Control α) (evs1 : List CEvent)
    (hf : Control.flip_state { c with current_time := t } =
      Except.ok (c1, evs1)) :
    Control.update t c = Except.ok
      ({ c1 with
          state := { c1.state with
            base := c1.state.ops.update c1.keys c1.current_time c1.state.base }
          state_dict := fun k =>
            if c1.state_name = some k then
              some { c1.state with
                base := c1.state.ops.update c1.keys c1.current_time
                  c1.state.base }
            else c1.state_dict k },
        evs1 ++ [CEvent.updateEv c1.state_name]) := by
  unfold Control.update
  simp only [h, ite_true, hf, Except.bind]
  rfl

/-- `Control.update` propagates a failed transition lookup unchanged. -/
theorem Control.update_flip_error {α : Type} (t : Nat) (c : Control α)
    (h : c.state.base.done = true) (e : Option String)
    (hf : Control.flip_state { c with current_time := t } = Except.error e) :
    Control.update t c = Except.error e := by
  unfold Control.update
  simp only [h, ite_true, hf, Except.bind]
  rfl

/-- A successful `Control.update` never changes the controller's own
terminal flag (only `event_loop` writes it). -/
theorem Control.update_done_eq {α : Type} (t : Nat) (c c' : Control α)
    (evs : List CEvent)
    (h : Control.update t c = Except.ok (c', evs)) : c'.done = c.done := by
  by_cases hd : c.state.base.done = true
  · cases hf : Control.flip_state { c with current_time := t } with
    | error e =>
      rw [Control.update_flip_error t c hd e hf] at h
      exact Except.noConfusion h
    | ok p =>
      obtain ⟨c1, evs1⟩ := p
      rw [Control.update_flip t c hd c1 evs1 hf] at h
      have h1 := Except.ok.inj h
      have h2 := congrArg Prod.fst h1
      dsimp only at h2
      rw [← h2]
      show c1.done = c.done
      exact Control.flip_state_done_eq { c with current_time := t } c1 evs1 hf
  · have hd' : c.state.base.done = false := by simpa using hd
    rw [Control.update_no_flip t c hd'] at h
    have h1 := Except.ok.inj h
    have h2 := congrArg Prod.fst h1
    dsimp only at h2
    rw [← h2]

/-- C9: each main-loop iteration performs event sampling, frame advance,
presentation and the frame-rate throttle, in that order, and consults the
terminal flag exactly once, at the top.  Consequently (i) a controller
whose flag is already true runs no further iteration and no phase, and
(ii) when the flag is false and a quit event is pending in the frame's
queue, the full frame still completes — all four phases run and the
screen update's result is the final state — and the loop then stops,
whatever frames remain. -/
theorem control_main_loop {α : Type} (fs fs' : List FrameInput)
    (c cq : Control α) (f : FrameInput) (c2 : Control α) (evs : List CEvent)
    (hc : c.done = true)
    (hq : cq.done = false)
    (hquit : f.events.any PEvent.isQuit = true)
    (hup : Control.update f.ticks (Control.event_loop f.events cq) =
      Except.ok (c2, evs)) :
    Control.main fs c = (Except.ok c, []) ∧
      Control.main (f :: fs') cq =
        (Except.ok c2,
          [Phase.eventPhase, Phase.updatePhase, Phase.displayPhase,
            Phase.throttlePhase]) := by
  refine ⟨Control.main_stops fs c hc, ?_⟩
  have hc2 : c2.done = true := by
    rw [Control.update_done_eq f.ticks _ _ _ hup]
    obtain ⟨h1, _, _, _, _⟩ := control_event_loop_drains f.events cq
    rw [h1, hq, hquit]
    rfl
  unfold Control.main
  simp only [hq, Bool.false_eq_true, ite_false]
  rw [hup]
  dsimp only
  rw [Control.main_stops fs' c2 hc2]

/-- Demo controller whose terminal flag is already set. -/
def demoControlDone : Control Unit :=
  { demoControlIdle with done := true }

/-- A frame whose event queue holds the quit signal. -/
def demoQuitFrame : FrameInput := ⟨[PEvent.quit], 7⟩

/-- The result of running the quit frame on the idle demo controller. -/
def demoQuitStep : Control Unit × List CEvent :=
  (Control.update 7
      (Control.event_loop [PEvent.quit] demoControlIdle)).toOption.getD
    (demoControlIdle, [])

/-- Witness for C9: the finished controller runs no phase; the idle
controller given a quit frame completes the four phases of exactly one
iteration and stops, though a second frame is available. -/
theorem control_main_loop_witness :
    Control.main [demoQuitFrame] demoControlDone =
        (Except.ok demoControlDone, []) ∧
      Control.main [demoQuitFrame, demoQuitFrame] demoControlIdle =
        (Except.ok demoQuitStep.1,
          [Phase.eventPhase, Phase.updatePhase, Phase.displayPhase,
            Phase.throttlePhase]) :=
  control_main_loop [demoQuitFrame] [demoQuitFrame] demoControlDone
    demoControlIdle demoQuitFrame demoQuitStep.1 demoQuitStep.2
    rfl rfl rfl rfl
